import Mathlib

/-!
# Passenger `ext/common/Utils.cpp`: a shallow embedding

The functions of `Utils.cpp` that touch the operating system are embedded as
functions over explicit descriptions of what the operating system answers.

Conventions used throughout:

* `std::string` / `char *` values that are paths, environment values or
  messages are Lean `String`s (C strings: no embedded NUL byte);
* `uid_t`, `gid_t`, `pid_t`, `errno` and `st_mode` values are natural numbers;
  `(uid_t) -1` is `2 ^ 32 - 1`;
* a C++ exception is the `error` side of `Except Exn`;
* `snprintf (buf, n, ...)` keeps the first `n - 1` characters of the formatted
  text;
* a `do ... while (result == -1 && errno == EINTR)` loop is one call whose
  answer is the first answer that is not an interruption.
-/

namespace Passenger

/-! ## Constants of the platform headers -/

/-- The `PATH_MAX` of `<limits.h>` (Linux value). -/
def PATH_MAX : Nat := 4096

/-- The `ENOENT` of `<errno.h>`. -/
def ENOENT : Nat := 2

/-- The `EINVAL` of `<errno.h>`. -/
def EINVAL : Nat := 22

/-- The `S_IFMT` mask of `<sys/stat.h>` (octal 0170000). -/
def S_IFMT : Nat := 0o170000

/-- The `S_IFREG` tag of `<sys/stat.h>` (octal 0100000). -/
def S_IFREG : Nat := 0o100000

/-- The `S_IFDIR` tag of `<sys/stat.h>` (octal 0040000). -/
def S_IFDIR : Nat := 0o040000

/-- The macro `S_ISREG (m)`. -/
def S_ISREG (m : Nat) : Bool := (m &&& S_IFMT) == S_IFREG

/-- The macro `S_ISDIR (m)`. -/
def S_ISDIR (m : Nat) : Bool := (m &&& S_IFMT) == S_IFDIR

/-! ## Exceptions and small string helpers -/

/-- The exception classes thrown by `Utils.cpp`, with their constructor arguments. -/
inductive Exn where
  | SystemException (message : String) (code : Nat)
  | IOException (message : String)
  | FileSystemException (message : String) (code : Nat) (filename : String)
  deriving DecidableEq, Repr

/-- The text `snprintf` leaves in a buffer handed over with size `n`. -/
def snprintf (n : Nat) (formatted : String) : String :=
  String.mk (formatted.data.take (n - 1))

/-! ## `getFileType` -/

/-- The `enum FileType` of `Utils.h`. -/
inductive FileType where
  | FT_REGULAR
  | FT_DIRECTORY
  | FT_OTHER
  | FT_NONEXISTANT
  deriving DecidableEq, Repr

/-- What a `stat`-like call hands back: its return value, the `st_mode` it
stored and the `errno` it left. -/
structure StatAnswer where
  ret : Int
  st_mode : Nat
  errno : Nat
  deriving DecidableEq, Repr

/-- The function `getFileType (filename, mstat, throttleRate)`. The direct
`stat` and the throttled `cached_multi_file_stat_perform` are the two
collaborators; `mstat = none` is the `NULL` cache. -/
def getFileType {C : Type} (stat : String → StatAnswer)
    (cached_multi_file_stat_perform : C → String → Nat → StatAnswer)
    (filename : String) (mstat : Option C) (throttleRate : Nat) : Except Exn FileType :=
  let a := match mstat with
    | some m => cached_multi_file_stat_perform m filename throttleRate
    | none => stat filename
  if a.ret = 0 then
    if S_ISREG a.st_mode then
      .ok .FT_REGULAR
    else if S_ISDIR a.st_mode then
      .ok .FT_DIRECTORY
    else
      .ok .FT_OTHER
  else
    if a.errno = ENOENT then
      .ok .FT_NONEXISTANT
    else
      .error (.FileSystemException ("Cannot stat '" ++ filename ++ "'") a.errno filename)

/-- The answer `getFileType` works with: the cache's when a cache is given,
the direct `stat`'s otherwise. -/
def statAnswerOf {C : Type} (stat : String → StatAnswer)
    (cached : C → String → Nat → StatAnswer)
    (filename : String) (mstat : Option C) (throttleRate : Nat) : StatAnswer :=
  match mstat with
  | some m => cached m filename throttleRate
  | none => stat filename

/-! ## `extractDirName` and `resolveSymlink` -/

/-- The index of the last `/` among the first `bound` characters: the
`strrchr` and `memrchr` calls of `dirname`; `none` is `NULL`. -/
def lastSlashBefore (cs : List Char) : Nat → Option Nat
  | 0 => none
  | bound + 1 => if cs.getD bound ' ' = '/' then some bound else lastSlashBefore cs bound

/-- The loop `for (runp = i; runp != path; --runp) if (runp[-1] != '/') break;`
of `dirname`: the start of the run of slashes that ends just before `i`. -/
def runStart (cs : List Char) : Nat → Nat
  | 0 => 0
  | i + 1 => if cs.getD i ' ' = '/' then runStart cs i else i + 1

/-- The `dirname (3)` of the GNU C library on the characters of a path. A
trailing run of slashes is skipped first; the text up to the run of slashes
before the last component is returned, `/` when that run starts the path,
`//` when the path starts with exactly two slashes, and `.` when there is
no slash to cut at. -/
def dirnameChars (cs : List Char) : List Char :=
  let last_slash := lastSlashBefore cs cs.length
  let last_slash :=
    match last_slash with
    | some l =>
      if l ≠ 0 ∧ l + 1 = cs.length then
        let runp := runStart cs l
        if runp ≠ 0 then lastSlashBefore cs runp else some l
      else some l
    | none => none
  match last_slash with
  | some l =>
    let runp := runStart cs l
    if runp = 0 then
      if l = 1 then cs.take 2 else cs.take 1
    else
      cs.take runp
  | none => ['.']

/-- The function `extractDirName (path)`. -/
def extractDirName (path : String) : String :=
  String.mk (dirnameChars path.data)

/-- What `readlink` hands back: `-1` with an `errno`, or the bytes it stored
in the buffer (the link's target). -/
inductive ReadlinkAnswer where
  | failed (errno : Nat)
  | target (buf : String)
  deriving DecidableEq, Repr

/-- The function `resolveSymlink (path)`; `readlink path n` is the answer of
the system call for a buffer of `n` bytes. -/
def resolveSymlink (readlink : String → Nat → ReadlinkAnswer) (path : String) :
    Except Exn String :=
  match readlink path (PATH_MAX - 1) with
  | .failed e =>
    if e = EINVAL then
      .ok path
    else
      .error (.FileSystemException ("Cannot resolve possible symlink '" ++ path ++ "'") e path)
  | .target buf =>
    match buf.data with
    | [] =>
      .error (.FileSystemException
        ("The file '" ++ path ++
          "' is a symlink, and it refers to an empty filename. This is not allowed.")
        ENOENT path)
    | c :: _ =>
      if c = '/' then
        .ok buf
      else
        .ok (extractDirName path ++ "/" ++ buf)

/-! ## `escapeForXml` -/

/-- One `char` of a `std::string`, read as an `unsigned char`. -/
abbrev Byte := Fin 256

/-- The text `printf ("%d", n)` writes for a non-negative `n`, as bytes. -/
def decimalBytes (n : Nat) : List Byte :=
  (Nat.toDigits 10 n).map fun c => Fin.ofNat c.toNat

/-- The text of the format `"&#%d;"` at `ch`. -/
def formatEntity (ch : Nat) : List Byte :=
  [38, 35] ++ decimalBytes ch ++ [59]

/-- The bytes `snprintf` leaves in a byte buffer handed over with size `n`. -/
def snprintfBytes (n : Nat) (formatted : List Byte) : List Byte :=
  formatted.take (n - 1)

/-- The call `result.replace (pos, len, s, n)` of `std::string`. -/
def replace (result : List Byte) (pos len : Nat) (s : List Byte) (n : Nat) : List Byte :=
  result.take pos ++ s.take n ++ result.drop (pos + len)

/-- The test of the `if` inside the loop of `escapeForXml`. -/
def isPlain (ch : Byte) : Bool :=
  (ch.val ≥ 65 && ch.val ≤ 122)
    || (ch.val ≥ 48 && ch.val ≤ 57)
    || ch.val == 47 || ch.val == 32 || ch.val == 95 || ch.val == 46

/-- The `while` loop of `escapeForXml`, with its three local variables
`input_pos`, `result_pos` and `result` (`input_end_pos` is `input.length`).
Every round advances `input_pos` by one, so `fuel` bounds the rounds left:
`input.length - input_pos` rounds always reach the exit test. -/
def escapeForXmlLoop (input : List Byte) : Nat → Nat → Nat → List Byte → List Byte
  | 0, _, _, result => result
  | fuel + 1, input_pos, result_pos, result =>
    if h : input_pos < input.length then
      let ch : Byte := input.get ⟨input_pos, h⟩
      if isPlain ch then
        escapeForXmlLoop input fuel (input_pos + 1) (result_pos + 1) result
      else
        -- sizeof (escapedCharacter) is sizeof ("&#255;") + 1 = 8
        let formatted := formatEntity ch.val
        let escapedCharacter := snprintfBytes (8 - 1) formatted
        let size := formatted.length
        escapeForXmlLoop input fuel (input_pos + 1) (result_pos + size)
          (replace result result_pos 1 escapedCharacter size)
    else
      result

/-- The function `escapeForXml (input)`. -/
def escapeForXml (input : List Byte) : List Byte :=
  escapeForXmlLoop input input.length 0 0 input

/-- The rewriting of one byte as the claim words it: the byte itself when it
is in `'A'..'z'`, a digit, or one of `/`, space, `_`, `.`; its numeric
character reference otherwise. -/
def entityOf (b : Byte) : List Byte :=
  if (65 ≤ b.val ∧ b.val ≤ 122) ∨ (48 ≤ b.val ∧ b.val ≤ 57)
      ∨ b.val = 47 ∨ b.val = 32 ∨ b.val = 95 ∨ b.val = 46 then
    [b]
  else
    [38, 35] ++ decimalBytes b.val ++ [59]

/-! ## The process environment and `getPassengerTempDir` -/

/-- The environment of the process: the newest binding of a name comes first. -/
abbrev Env := List (String × String)

/-- The call `getenv (name)`; `none` is `NULL`. -/
def getenv (env : Env) (name : String) : Option String :=
  env.lookup name

/-- The call `setenv (name, value, 1)`. -/
def setenv (env : Env) (name value : String) : Env :=
  (name, value) :: env

/-- The function `getSystemTempDir ()`. -/
def getSystemTempDir (env : Env) : String :=
  match getenv env "TMPDIR" with
  | none => "/tmp"
  | some temp_dir => if temp_dir = "" then "/tmp" else temp_dir

/-- The label `calculateResult:` of `getPassengerTempDir` and what follows it. -/
def calculateResult (pid : Nat) (systemTempDir : String) (env : Env) : String × Env :=
  let temp_dir := if systemTempDir = "" then getSystemTempDir env else systemTempDir
  let buffer := snprintf PATH_MAX (temp_dir ++ "/passenger." ++ toString pid)
  (buffer, setenv env "PASSENGER_INSTANCE_TEMP_DIR" buffer)

/-- The function `getPassengerTempDir (bypassCache, systemTempDir)` in a
process with id `pid`: the result and the environment it leaves. -/
def getPassengerTempDir (pid : Nat) (bypassCache : Bool) (systemTempDir : String)
    (env : Env) : String × Env :=
  if bypassCache then
    calculateResult pid systemTempDir env
  else
    match getenv env "PASSENGER_INSTANCE_TEMP_DIR" with
    | some tmp => if tmp ≠ "" then (tmp, env) else calculateResult pid systemTempDir env
    | none => calculateResult pid systemTempDir env

/-- A run of non-bypassing `getPassengerTempDir` calls, one per argument of
the list, threading the environment: the results in order and the final
environment. -/
def locateAll (pid : Nat) : List String → Env → List String × Env
  | [], env => ([], env)
  | arg :: rest, env =>
    let r := getPassengerTempDir pid false arg env
    let rs := locateAll pid rest r.2
    (r.1 :: rs.1, rs.2)

/-! ## The world of the provisioner: accounts, files, commands -/

/-- The value `(uid_t) -1` (and `(gid_t) -1`) for 32-bit ids. -/
def NO_ID : Nat := 2 ^ 32 - 1

/-- What `system` or `chown` hands back: the return value and the `errno` left. -/
structure Answer where
  result : Int
  errno : Nat
  deriving DecidableEq, Repr

/-- The calls that change the file system, as the code issues them. -/
inductive Op where
  | system (command : String)
  | chown (path : String) (owner group : Nat)
  deriving DecidableEq, Repr

/-- The state the provisioner runs in.

* `pid`, `euid`: what `getpid ()` and `geteuid ()` return;
* `env`: the environment;
* `getpwnam`: the account database, a name to its `(pw_uid, pw_gid)`;
* `files`: the paths on which `stat` returns 0;
* `systemAnswer`, `chownAnswer`: what `system (command)` and
  `chown (path, owner, group)` return, after any interrupted attempts;
* `mkdirMakes`: the paths on which `stat` starts to return 0 once the
  `mkdir -p` command formatted for a path has exited with 0. The command line
  is read by `sh`, which rewrites `$`, backquote, backslash and double quote
  between the double quotes it puts around the path, and by `mkdir`, which
  reads a leading `-` as an option: what is made need not be the path that
  `stat` is asked about;
* `trace`: the `system` and `chown` calls made so far, oldest first. -/
structure World where
  pid : Nat
  euid : Nat
  env : Env
  getpwnam : String → Option (Nat × Nat)
  files : List String
  systemAnswer : String → Answer
  chownAnswer : String → Nat → Nat → Answer
  mkdirMakes : String → List String
  trace : List Op

/-- The test `stat (path, &buf) == 0`. -/
def statOk (w : World) (path : String) : Bool :=
  w.files.contains path

/-- A step of the provisioner: it returns or throws, and leaves a world. -/
abbrev Step := World → Except Exn Unit × World

/-- Sequencing of two statements: the second runs only if the first returned. -/
def andThen (f g : Step) : Step := fun w =>
  match f w with
  | (.ok (), w1) => g w1
  | (.error e, w1) => (.error e, w1)

/-- The function `determineLowestUserAndGroup (user, uid, gid)`: the pair it
stores in `uid` and `gid`. -/
def determineLowestUserAndGroup (getpwnam : String → Option (Nat × Nat)) (user : String) :
    Nat × Nat :=
  let ent := match getpwnam user with
    | none => getpwnam "nobody"
    | some e => some e
  match ent with
  | none => (NO_ID, NO_ID)
  | some e => (e.1, e.2)

/-- The command line `makeDirTree` formats into `command[PATH_MAX + 10]`. -/
def mkdirCommand (mode path : String) : String :=
  snprintf (PATH_MAX + 10) ("mkdir -p -m \"" ++ mode ++ "\" \"" ++ path ++ "\"")

/-- The function `makeDirTree (path, mode, owner, group)`. The command runs
outside the program: what is taken from it is its answer and, when it exits
with 0, the paths the world says it has made (`mkdirMakes`); a command that
fails leaves the files as they were. -/
def makeDirTree (path mode : String) (owner group : Nat) : Step := fun w =>
  if statOk w path then
    (.ok (), w)
  else
    let command := mkdirCommand mode path
    let a := w.systemAnswer command
    let w1 : World := { w with
      trace := w.trace ++ [Op.system command]
      files := if a.result = 0 then w.mkdirMakes path ++ w.files else w.files }
    if a.result ≠ 0 then
      let message := snprintf (1024 - 1) ("Cannot create directory '" ++ path ++ "'")
      if a.result = -1 then
        (.error (.SystemException message a.errno), w1)
      else
        (.error (.IOException message), w1)
    else if owner ≠ NO_ID ∧ group ≠ NO_ID then
      let c := w1.chownAnswer path owner group
      let w2 : World := { w1 with trace := w1.trace ++ [Op.chown path owner group] }
      if c.result ≠ 0 then
        let message := snprintf (1024 - 1)
          ("Cannot change the directory '" ++ path ++ "' its UID to " ++ toString owner
            ++ " and GID to " ++ toString group)
        (.error (.FileSystemException message c.errno path), w2)
      else
        (.ok (), w2)
    else
      (.ok (), w1)

/-- Modelled from the spec: the default arguments `owner` and `group` of the
declaration of `makeDirTree` in `Utils.h`, which is not among the sources.
A call that names no owner makes "no owner change": both default to
`(uid_t) -1`. -/
def makeDirTreeDefaultOwner (path mode : String) : Step :=
  makeDirTree path mode NO_ID NO_ID

/-- The function `createPassengerTempDir (systemTempDir, userSwitching,
lowestUser, workerUid, workerGid)`. -/
def createPassengerTempDir (systemTempDir : String) (userSwitching : Bool)
    (lowestUser : String) (workerUid workerGid : Nat) : Step := fun w =>
  let located := getPassengerTempDir w.pid false systemTempDir w.env
  let tmpDir := located.1
  let w0 : World := { w with env := located.2 }
  let lowest := determineLowestUserAndGroup w0.getpwnam lowestUser
  let lowestUid := lowest.1
  let lowestGid := lowest.2
  let geteuid := w0.euid
  (andThen (makeDirTreeDefaultOwner tmpDir "u=wxs,g=x,o=x") <|
   andThen
    (if geteuid = 0 then
      makeDirTree (tmpDir ++ "/webserver_private") "u=wxs,g=,o=" workerUid workerGid
    else
      makeDirTreeDefaultOwner (tmpDir ++ "/webserver_private") "u=wxs,g=,o=") <|
   andThen
    (if geteuid = 0 ∧ ¬ userSwitching then
      makeDirTree (tmpDir ++ "/info") "u=rwxs,g=,o=" lowestUid lowestGid
    else
      makeDirTreeDefaultOwner (tmpDir ++ "/info") "u=rwxs,g=,o=") <|
   andThen
    (if geteuid = 0 then
      if userSwitching then
        makeDirTree (tmpDir ++ "/master") "u=wxs,g=,o=" workerUid workerGid
      else
        makeDirTree (tmpDir ++ "/master") "u=wxs,g=x,o=" lowestUid workerGid
    else
      makeDirTreeDefaultOwner (tmpDir ++ "/master") "u=wxs,g=,o=") <|
   andThen
    (if geteuid = 0 then
      if userSwitching then
        makeDirTreeDefaultOwner (tmpDir ++ "/backends") "u=rwxs,g=wx,o=wx"
      else
        makeDirTree (tmpDir ++ "/backends") "u=rwxs,g=x,o=x" lowestUid lowestGid
    else
      makeDirTreeDefaultOwner (tmpDir ++ "/backends") "u=rwxs,g=x,o=x") <|
    (if geteuid = 0 then
      if userSwitching then
        makeDirTreeDefaultOwner (tmpDir ++ "/var") "u=wxs,g=wx,o=wx"
      else
        makeDirTree (tmpDir ++ "/var") "u=wxs,g=,o=" lowestUid lowestGid
    else
      makeDirTreeDefaultOwner (tmpDir ++ "/var") "u=wxs,g=,o=")) w0

/-- The first command line of `removeDirTree`, in `command[PATH_MAX + 30]`. -/
def chmodCommand (path : String) : String :=
  snprintf (PATH_MAX + 30) ("chmod -R u+rwx \"" ++ path ++ "\" 2>/dev/null")

/-- The second command line of `removeDirTree`. -/
def rmCommand (path : String) : String :=
  snprintf (PATH_MAX + 30) ("rm -rf \"" ++ path ++ "\"")

/-- Whether `p` is `path` or lies below it. -/
def isUnder (path p : String) : Bool :=
  p == path || (path ++ "/").data.isPrefixOf p.data

/-- The function `removeDirTree (path)`. An `rm -rf` command that exits with
0 leaves nothing at `path` or below it; one that does not leaves the files
as they were. -/
def removeDirTree (path : String) : Step := fun w =>
  let command := chmodCommand path
  let w1 : World := { w with trace := w.trace ++ [Op.system command] }
  let command := rmCommand path
  let a := w1.systemAnswer command
  let w2 : World := { w1 with
    trace := w1.trace ++ [Op.system command]
    files := if a.result = 0 then w1.files.filter (fun p => !isUnder path p) else w1.files }
  if a.result = -1 then
    let message := snprintf (1024 - 1) ("Cannot remove directory '" ++ path ++ "'")
    (.error (.FileSystemException message a.errno path), w2)
  else
    (.ok (), w2)


/-- The base directory as the specification words it: the explicit system
temp directory if it is non-empty, otherwise the value of `TMPDIR` if that is
set and non-empty, otherwise `/tmp`. -/
def baseDirOf (env : Env) (explicitSystemTempDir : String) : String :=
  if explicitSystemTempDir ≠ "" then explicitSystemTempDir
  else match getenv env "TMPDIR" with
    | some t => if t ≠ "" then t else "/tmp"
    | none => "/tmp"

/-- Whether `PASSENGER_INSTANCE_TEMP_DIR` is set to a non-empty value. -/
def published (env : Env) : Bool :=
  match getenv env "PASSENGER_INSTANCE_TEMP_DIR" with
  | some v => v != ""
  | none => false

/-! ## The provisioner as a list of directories -/

/-- One `makeDirTree` call of `createPassengerTempDir`: its four arguments. -/
structure DirectorySpec where
  path : String
  mode : String
  owner : Nat
  group : Nat
  deriving DecidableEq, Repr

/-- The six `makeDirTree` calls of `createPassengerTempDir` in the order of
the source, each with the arguments its `if` selects. -/
def directorySpecs (geteuid : Nat) (userSwitching : Bool)
    (workerUid workerGid lowestUid lowestGid : Nat) (tmpDir : String) : List DirectorySpec :=
  [ ⟨tmpDir, "u=wxs,g=x,o=x", NO_ID, NO_ID⟩,
    if geteuid = 0 then ⟨tmpDir ++ "/webserver_private", "u=wxs,g=,o=", workerUid, workerGid⟩
    else ⟨tmpDir ++ "/webserver_private", "u=wxs,g=,o=", NO_ID, NO_ID⟩,
    if geteuid = 0 ∧ ¬ userSwitching then ⟨tmpDir ++ "/info", "u=rwxs,g=,o=", lowestUid, lowestGid⟩
    else ⟨tmpDir ++ "/info", "u=rwxs,g=,o=", NO_ID, NO_ID⟩,
    if geteuid = 0 then
      if userSwitching then ⟨tmpDir ++ "/master", "u=wxs,g=,o=", workerUid, workerGid⟩
      else ⟨tmpDir ++ "/master", "u=wxs,g=x,o=", lowestUid, workerGid⟩
    else ⟨tmpDir ++ "/master", "u=wxs,g=,o=", NO_ID, NO_ID⟩,
    if geteuid = 0 then
      if userSwitching then ⟨tmpDir ++ "/backends", "u=rwxs,g=wx,o=wx", NO_ID, NO_ID⟩
      else ⟨tmpDir ++ "/backends", "u=rwxs,g=x,o=x", lowestUid, lowestGid⟩
    else ⟨tmpDir ++ "/backends", "u=rwxs,g=x,o=x", NO_ID, NO_ID⟩,
    if geteuid = 0 then
      if userSwitching then ⟨tmpDir ++ "/var", "u=wxs,g=wx,o=wx", NO_ID, NO_ID⟩
      else ⟨tmpDir ++ "/var", "u=wxs,g=,o=", lowestUid, lowestGid⟩
    else ⟨tmpDir ++ "/var", "u=wxs,g=,o=", NO_ID, NO_ID⟩ ]

/-- The `makeDirTree` call of a `DirectorySpec`. -/
def makeDir (d : DirectorySpec) : Step :=
  makeDirTree d.path d.mode d.owner d.group

/-- The `makeDirTree` calls of a list, one after the other, stopping at the
first that throws. -/
def runSpecs : List DirectorySpec → Step
  | [] => fun w => (.ok (), w)
  | d :: ds => andThen (makeDir d) (runSpecs ds)

/-- The six paths `createPassengerTempDir` creates under `tmpDir`, in order. -/
def targetPaths (tmpDir : String) : List String :=
  [tmpDir, tmpDir ++ "/webserver_private", tmpDir ++ "/info", tmpDir ++ "/master",
    tmpDir ++ "/backends", tmpDir ++ "/var"]

/-- The temp root `createPassengerTempDir` works under in world `w`. -/
def tmpDirOf (w : World) (systemTempDir : String) : String :=
  (getPassengerTempDir w.pid false systemTempDir w.env).1

/-- The calls a run has added to the trace of `w`, given the world it left. -/
def newOps (w w1 : World) : List Op :=
  w1.trace.drop w.trace.length

/-- A root process with id 4242, an empty environment, an empty file system,
the one account `nobody`, commands and `chown` calls that all succeed, and
`mkdir` commands that make the path they are formatted for. -/
def rootWorld : World where
  pid := 4242
  euid := 0
  env := []
  getpwnam := fun name => if name = "nobody" then some (65534, 65534) else none
  files := []
  systemAnswer := fun _ => ⟨0, 0⟩
  chownAnswer := fun _ _ _ => ⟨0, 0⟩
  mkdirMakes := fun path => [path]
  trace := []

/-- The world `rootWorld` in which the `mkdir` command for `info` exits with
status 1 (wait status 256). -/
def infoFailsWorld : World :=
  { rootWorld with
    systemAnswer := fun cmd =>
      if cmd = mkdirCommand "u=rwxs,g=,o=" "/tmp/passenger.4242/info" then ⟨256, 0⟩ else ⟨0, 0⟩ }

/-- A world with a provisioned temp root in which `rm -rf` on it exits with
status 1 (wait status 256), every other command with 0. -/
def rmFailsWorld : World :=
  { rootWorld with
    files := ["/tmp/passenger.4242", "/tmp/passenger.4242/info"]
    systemAnswer := fun cmd =>
      if cmd = rmCommand "/tmp/passenger.4242" then ⟨256, 0⟩ else ⟨0, 0⟩ }

/-- What `sh` makes of a text between double quotes when the variable `x` is
not set: every `$x` is dropped. -/
def dropDollarX : List Char → List Char
  | '$' :: 'x' :: cs => dropDollarX cs
  | c :: cs => c :: dropDollarX cs
  | [] => []

/-- A process that is not root, with id 4242, an empty environment and an
empty file system, in which the variable `x` is not set: a `mkdir` command
formatted for a path makes the path without its `$x`, and every command
exits with 0. -/
def dollarWorld : World where
  pid := 4242
  euid := 1000
  env := []
  getpwnam := fun name => if name = "nobody" then some (65534, 65534) else none
  files := []
  systemAnswer := fun _ => ⟨0, 0⟩
  chownAnswer := fun _ _ _ => ⟨0, 0⟩
  mkdirMakes := fun path => [String.mk (dropDollarX path.data)]
  trace := []

/-- The exception `makeDirTree` throws when the answer `a` of its `mkdir`
command is not 0. -/
def mkdirException (a : Answer) (path : String) : Exn :=
  if a.result = -1 then
    .SystemException (snprintf (1024 - 1) ("Cannot create directory '" ++ path ++ "'")) a.errno
  else
    .IOException (snprintf (1024 - 1) ("Cannot create directory '" ++ path ++ "'"))

set_option maxRecDepth 100000 in
/-- The text of `"&#%d;"` at an `unsigned char` fits the six characters that
`snprintf` may store. -/
theorem formatEntity_length_le (b : Byte) : (formatEntity b.val).length ≤ 6 := by
  revert b
  decide

/-- The test of the loop is the condition of the claim. -/
theorem isPlain_iff (b : Byte) :
    isPlain b = true ↔
      ((65 ≤ b.val ∧ b.val ≤ 122) ∨ (48 ≤ b.val ∧ b.val ≤ 57)
        ∨ b.val = 47 ∨ b.val = 32 ∨ b.val = 95 ∨ b.val = 46) := by
  simp [isPlain, or_assoc]

/-- Replacing the one byte that follows `R` by an entity text. -/
theorem replace_entity (R t : List Byte) (b c : Byte) :
    replace (R ++ b :: t) R.length 1 (snprintfBytes (8 - 1) (formatEntity c.val))
        (formatEntity c.val).length
      = (R ++ formatEntity c.val) ++ t := by
  have h6 := formatEntity_length_le c
  have h1 : List.take R.length (R ++ b :: t) = R := List.take_left R (b :: t)
  have h2 : List.drop (R.length + 1) (R ++ b :: t) = t := by
    rw [← List.drop_drop, List.drop_left]
    rfl
  have h3 : List.take (formatEntity c.val).length (snprintfBytes (8 - 1) (formatEntity c.val))
      = formatEntity c.val := by
    have ha : snprintfBytes (8 - 1) (formatEntity c.val) = formatEntity c.val :=
      List.take_of_length_le h6
    rw [ha]
    exact List.take_of_length_le (le_refl _)
  unfold replace
  rw [h1, h2, h3]

/-- The invariant of the loop: with the first `pre.length` bytes read and
their rewriting `R` written in front of the unread bytes, the loop ends with
`R` followed by the rewriting of the unread bytes. -/
theorem escapeForXmlLoop_spec (suf : List Byte) :
    ∀ (pre R : List Byte) (fuel : Nat), suf.length ≤ fuel →
      escapeForXmlLoop (pre ++ suf) fuel pre.length R.length (R ++ suf)
        = R ++ suf.flatMap entityOf := by
  induction suf with
  | nil =>
    intro pre R fuel _
    cases fuel with
    | zero => simp [escapeForXmlLoop]
    | succ f => simp [escapeForXmlLoop]
  | cons b t ih =>
    intro pre R fuel hf
    cases fuel with
    | zero => simp at hf
    | succ f =>
      have hf2 : t.length ≤ f := by simpa using hf
      have hlt : pre.length < (pre ++ b :: t).length := by simp
      have hget : (pre ++ b :: t).get ⟨pre.length, hlt⟩ = b := by
        rw [List.get_eq_getElem, List.getElem_append_right (le_refl _)]
        simp
      have hsplit : pre ++ b :: t = (pre ++ [b]) ++ t := by simp
      rw [escapeForXmlLoop, dif_pos hlt]
      simp only [hget]
      by_cases hp : isPlain b = true
      · have he : entityOf b = [b] := by
          unfold entityOf
          rw [if_pos ((isPlain_iff b).1 hp)]
        have h := ih (pre ++ [b]) (R ++ [b]) f hf2
        simp only [List.length_append, List.length_singleton, List.append_assoc,
          List.singleton_append] at h
        rw [if_pos hp, h, List.flatMap_cons, he]
        simp
      · have he : entityOf b = formatEntity b.val := by
          unfold entityOf formatEntity
          rw [if_neg (fun hc => hp ((isPlain_iff b).2 hc))]
        have h := ih (pre ++ [b]) (R ++ formatEntity b.val) f hf2
        simp only [List.length_append, List.length_singleton, List.append_assoc,
          List.singleton_append] at h
        rw [if_neg hp, replace_entity, List.flatMap_cons, he]
        simp only [List.append_assoc]
        exact h

/-! ## Lemmas on `getPassengerTempDir` -/

/-- What `snprintf` keeps of a text that starts a non-empty formatted text is
not empty. -/
theorem snprintf_PATH_MAX_ne_empty (t : String) (pid : Nat) :
    snprintf PATH_MAX (t ++ "/passenger." ++ toString pid) ≠ "" := by
  intro h
  have hd := congrArg String.data h
  simp only [snprintf, String.data_append] at hd
  cases ht : t.data with
  | nil =>
    rw [ht] at hd
    simp [PATH_MAX] at hd
  | cons c cs =>
    rw [ht] at hd
    simp [PATH_MAX] at hd

/-- Setting `PASSENGER_INSTANCE_TEMP_DIR` does not change what `TMPDIR` reads. -/
theorem getSystemTempDir_setenv (env : Env) (v : String) :
    getSystemTempDir (setenv env "PASSENGER_INSTANCE_TEMP_DIR" v) = getSystemTempDir env := by
  have hne : ("TMPDIR" == "PASSENGER_INSTANCE_TEMP_DIR") = false := by decide
  simp [getSystemTempDir, getenv, setenv, List.lookup_cons, hne]

/-- A non-bypassing call in an environment that publishes `v` returns `v`
and leaves the environment alone. -/
theorem getPassengerTempDir_published (pid : Nat) (arg : String) (env : Env) (v : String)
    (hv : getenv env "PASSENGER_INSTANCE_TEMP_DIR" = some v) (hne : v ≠ "") :
    getPassengerTempDir pid false arg env = (v, env) := by
  simp [getPassengerTempDir, hv, hne]

/-- What `calculateResult` returns is published and not empty. -/
theorem calculateResult_publishes (pid : Nat) (arg : String) (env : Env) :
    getenv (calculateResult pid arg env).2 "PASSENGER_INSTANCE_TEMP_DIR"
        = some (calculateResult pid arg env).1
      ∧ (calculateResult pid arg env).1 ≠ "" := by
  refine ⟨?_, ?_⟩
  · simp [calculateResult, getenv, setenv, List.lookup_cons]
  · exact snprintf_PATH_MAX_ne_empty _ pid

/-- After any call, what the call returned is published and not empty. -/
theorem getPassengerTempDir_publishes (pid : Nat) (bypass : Bool) (arg : String) (env : Env) :
    getenv (getPassengerTempDir pid bypass arg env).2 "PASSENGER_INSTANCE_TEMP_DIR"
        = some (getPassengerTempDir pid bypass arg env).1
      ∧ (getPassengerTempDir pid bypass arg env).1 ≠ "" := by
  unfold getPassengerTempDir
  cases bypass with
  | true => simpa using calculateResult_publishes pid arg env
  | false =>
    simp only [Bool.false_eq_true, if_false]
    cases hv : getenv env "PASSENGER_INSTANCE_TEMP_DIR" with
    | none => simpa using calculateResult_publishes pid arg env
    | some v =>
      by_cases hne : v = ""
      · simpa [hne] using calculateResult_publishes pid arg env
      · simp [hne, hv]

/-- Non-bypassing calls in an environment that publishes `v` all return `v`. -/
theorem locateAll_published (pid : Nat) (v : String) (hne : v ≠ "") :
    ∀ (args : List String) (env : Env),
      getenv env "PASSENGER_INSTANCE_TEMP_DIR" = some v →
      locateAll pid args env = (List.replicate args.length v, env) := by
  intro args
  induction args with
  | nil => intro env _; rfl
  | cons a rest ih =>
    intro env hv
    simp only [locateAll, getPassengerTempDir_published pid a env v hv hne, ih env hv,
      List.length_cons, List.replicate_succ]

/-! ## Lemmas on `makeDirTree` and on runs of it -/

/-- The second statement runs in the world the first one leaves. -/
theorem andThen_ok (f g : Step) (w w1 : World) (h : f w = (.ok (), w1)) :
    andThen f g w = g w1 := by
  simp [andThen, h]

/-- A statement followed by nothing is the statement. -/
theorem andThen_skip (f : Step) : andThen f (fun w => (.ok (), w)) = f := by
  funext w
  unfold andThen
  rcases hf : f w with ⟨r, w1⟩
  cases r with
  | ok u => rfl
  | error e => rfl

/-- `createPassengerTempDir` is the run of its six `makeDirTree` calls in the
world whose environment `getPassengerTempDir` has left. -/
theorem createPassengerTempDir_eq_runSpecs (systemTempDir : String) (userSwitching : Bool)
    (lowestUser : String) (workerUid workerGid : Nat) (w : World) :
    createPassengerTempDir systemTempDir userSwitching lowestUser workerUid workerGid w
      = runSpecs
          (directorySpecs w.euid userSwitching workerUid workerGid
            (determineLowestUserAndGroup w.getpwnam lowestUser).1
            (determineLowestUserAndGroup w.getpwnam lowestUser).2
            (tmpDirOf w systemTempDir))
          { w with env := (getPassengerTempDir w.pid false systemTempDir w.env).2 } := by
  unfold createPassengerTempDir directorySpecs tmpDirOf
  simp only [runSpecs, andThen_skip, makeDir, makeDirTreeDefaultOwner]
  by_cases he : w.euid = 0 <;> cases userSwitching <;> simp [he]

/-- A path on which `stat` succeeds is a path among the files. -/
theorem statOk_iff (w : World) (q : String) : statOk w q = true ↔ q ∈ w.files := by
  simp [statOk]

/-- A path that exists is left alone: no `mkdir`, no `chown`, no change. -/
theorem makeDirTree_of_exists (path mode : String) (owner group : Nat) (w : World)
    (h : statOk w path = true) :
    makeDirTree path mode owner group w = (.ok (), w) := by
  simp [makeDirTree, h]

/-- A `mkdir` command whose answer is not 0 makes `makeDirTree` throw, with
that one command added to the trace and the files as they were. -/
theorem makeDirTree_mkdir_fails (path mode : String) (owner group : Nat) (w : World)
    (hp : statOk w path = false)
    (h0 : (w.systemAnswer (mkdirCommand mode path)).result ≠ 0) :
    makeDirTree path mode owner group w
      = (.error (mkdirException (w.systemAnswer (mkdirCommand mode path)) path),
          { w with trace := w.trace ++ [Op.system (mkdirCommand mode path)] }) := by
  unfold makeDirTree mkdirException
  by_cases h1 : (w.systemAnswer (mkdirCommand mode path)).result = -1
  · simp [hp, h0, h1]
  · simp [hp, h0, h1]

/-- The files `makeDirTree` leaves are those it found, with in front of them
what its command made when it ran and exited with 0. -/
theorem makeDirTree_files (path mode : String) (owner group : Nat) (w : World) :
    (makeDirTree path mode owner group w).2.files
      = if statOk w path = false ∧ (w.systemAnswer (mkdirCommand mode path)).result = 0
        then w.mkdirMakes path ++ w.files else w.files := by
  unfold makeDirTree
  by_cases hp : statOk w path = true
  · simp [hp]
  · by_cases h0 : (w.systemAnswer (mkdirCommand mode path)).result = 0
    · by_cases hi : owner ≠ NO_ID ∧ group ≠ NO_ID
      · by_cases hc : (w.chownAnswer path owner group).result = 0
        · simp [hp, h0, hi, hc]
        · simp [hp, h0, hi, hc]
      · simp [hp, h0, hi]
    · by_cases h1 : (w.systemAnswer (mkdirCommand mode path)).result = -1
      · simp [hp, h0, h1]
      · simp [hp, h0, h1]

/-- `makeDirTree` removes no path. -/
theorem makeDirTree_mono (path mode : String) (owner group : Nat) (w : World) (q : String)
    (h : statOk w q = true) :
    statOk (makeDirTree path mode owner group w).2 q = true := by
  rw [statOk_iff] at h ⊢
  rw [makeDirTree_files]
  by_cases hc : statOk w path = false ∧ (w.systemAnswer (mkdirCommand mode path)).result = 0
  · rw [if_pos hc]
    exact List.mem_append_right _ h
  · rw [if_neg hc]
    exact h

/-- When `makeDirTree` returns and its command makes its path, the path
exists. -/
theorem makeDirTree_ok_exists (path mode : String) (owner group : Nat) (w : World)
    (hm : path ∈ w.mkdirMakes path)
    (h : (makeDirTree path mode owner group w).1 = .ok ()) :
    statOk (makeDirTree path mode owner group w).2 path = true := by
  by_cases hp : statOk w path = true
  · rw [makeDirTree_of_exists path mode owner group w hp]
    exact hp
  · have hpf : statOk w path = false := by
      cases hs : statOk w path
      · rfl
      · exact absurd hs hp
    by_cases h0 : (w.systemAnswer (mkdirCommand mode path)).result = 0
    · rw [statOk_iff, makeDirTree_files, if_pos ⟨hpf, h0⟩]
      exact List.mem_append_left _ hm
    · rw [makeDirTree_mkdir_fails path mode owner group w hpf h0] at h
      cases h

/-- `makeDirTree` changes nothing of the process but its files and its trace. -/
theorem makeDirTree_frame (path mode : String) (owner group : Nat) (w : World) :
    (makeDirTree path mode owner group w).2.pid = w.pid ∧
    (makeDirTree path mode owner group w).2.euid = w.euid ∧
    (makeDirTree path mode owner group w).2.env = w.env ∧
    (makeDirTree path mode owner group w).2.getpwnam = w.getpwnam ∧
    (makeDirTree path mode owner group w).2.systemAnswer = w.systemAnswer ∧
    (makeDirTree path mode owner group w).2.chownAnswer = w.chownAnswer ∧
    (makeDirTree path mode owner group w).2.mkdirMakes = w.mkdirMakes := by
  unfold makeDirTree
  by_cases hp : statOk w path = true
  · simp [hp]
  · by_cases h0 : (w.systemAnswer (mkdirCommand mode path)).result = 0
    · by_cases hi : owner ≠ NO_ID ∧ group ≠ NO_ID
      · by_cases hc : (w.chownAnswer path owner group).result = 0
        · simp [hp, h0, hi, hc]
        · simp [hp, h0, hi, hc]
      · simp [hp, h0, hi]
    · by_cases h1 : (w.systemAnswer (mkdirCommand mode path)).result = -1
      · simp [hp, h0, h1]
      · simp [hp, h0, h1]

/-- A run over paths that all exist changes nothing. -/
theorem runSpecs_of_exists (ds : List DirectorySpec) (w : World)
    (h : ∀ d ∈ ds, statOk w d.path = true) :
    runSpecs ds w = (.ok (), w) := by
  induction ds with
  | nil => rfl
  | cons d ds ih =>
    have hd : makeDir d w = (.ok (), w) :=
      makeDirTree_of_exists d.path d.mode d.owner d.group w (h d (List.mem_cons_self _ _))
    rw [runSpecs, andThen_ok _ _ w w hd]
    exact ih fun d' hd' => h d' (List.mem_cons_of_mem _ hd')

/-- A run removes no path. -/
theorem runSpecs_mono (ds : List DirectorySpec) :
    ∀ (w : World) (q : String), statOk w q = true → statOk (runSpecs ds w).2 q = true := by
  induction ds with
  | nil => intro w q h; exact h
  | cons d ds ih =>
    intro w q h
    have hm := makeDirTree_mono d.path d.mode d.owner d.group w q h
    unfold runSpecs andThen makeDir
    rcases hr : makeDirTree d.path d.mode d.owner d.group w with ⟨r, w1⟩
    rw [hr] at hm
    cases r with
    | ok u => exact ih w1 q hm
    | error e => exact hm

/-- A run changes nothing of the process but its files and its trace. -/
theorem runSpecs_frame (ds : List DirectorySpec) :
    ∀ w : World,
      (runSpecs ds w).2.pid = w.pid ∧ (runSpecs ds w).2.euid = w.euid ∧
      (runSpecs ds w).2.env = w.env ∧ (runSpecs ds w).2.getpwnam = w.getpwnam ∧
      (runSpecs ds w).2.systemAnswer = w.systemAnswer ∧
      (runSpecs ds w).2.chownAnswer = w.chownAnswer ∧
      (runSpecs ds w).2.mkdirMakes = w.mkdirMakes := by
  induction ds with
  | nil => intro w; exact ⟨rfl, rfl, rfl, rfl, rfl, rfl, rfl⟩
  | cons d ds ih =>
    intro w
    have hf := makeDirTree_frame d.path d.mode d.owner d.group w
    unfold runSpecs andThen makeDir
    rcases hr : makeDirTree d.path d.mode d.owner d.group w with ⟨r, w1⟩
    rw [hr] at hf
    cases r with
    | ok u =>
      have h2 := ih w1
      exact ⟨h2.1.trans hf.1, h2.2.1.trans hf.2.1, h2.2.2.1.trans hf.2.2.1,
        h2.2.2.2.1.trans hf.2.2.2.1, h2.2.2.2.2.1.trans hf.2.2.2.2.1,
        h2.2.2.2.2.2.1.trans hf.2.2.2.2.2.1, h2.2.2.2.2.2.2.trans hf.2.2.2.2.2.2⟩
    | error e => exact hf

/-- When a run returns and the command of every directory makes its path,
every path of the run exists. -/
theorem runSpecs_ok_exists (ds : List DirectorySpec) :
    ∀ w : World, (∀ d ∈ ds, d.path ∈ w.mkdirMakes d.path) → (runSpecs ds w).1 = .ok () →
      ∀ d ∈ ds, statOk (runSpecs ds w).2 d.path = true := by
  induction ds with
  | nil => intro w _ _ d hd; cases hd
  | cons d ds ih =>
    intro w hm hok d' hd'
    have he := makeDirTree_ok_exists d.path d.mode d.owner d.group w
      (hm d (List.mem_cons_self _ _))
    have hf := (makeDirTree_frame d.path d.mode d.owner d.group w).2.2.2.2.2.2
    unfold runSpecs andThen makeDir at hok ⊢
    rcases hr : makeDirTree d.path d.mode d.owner d.group w with ⟨r, w1⟩
    rw [hr] at hok he hf
    cases r with
    | error e => cases hok
    | ok u =>
      have hm1 : ∀ d2 ∈ ds, d2.path ∈ w1.mkdirMakes d2.path := by
        intro d2 hd2
        have hfe : w1.mkdirMakes = w.mkdirMakes := hf
        rw [hfe]
        exact hm d2 (List.mem_cons_of_mem _ hd2)
      rcases List.mem_cons.1 hd' with heq | hmem
      · subst heq
        exact runSpecs_mono ds w1 _ (he rfl)
      · exact ih w1 hm1 hok d' hmem

/-- The paths of the six calls are the six target paths, whatever the
configuration. -/
theorem directorySpecs_paths (geteuid : Nat) (userSwitching : Bool)
    (workerUid workerGid lowestUid lowestGid : Nat) (tmpDir : String) :
    (directorySpecs geteuid userSwitching workerUid workerGid lowestUid lowestGid tmpDir).map
        DirectorySpec.path
      = targetPaths tmpDir := by
  unfold directorySpecs targetPaths
  by_cases he : geteuid = 0 <;> cases userSwitching <;> simp [he]

/-- A second non-bypassing `getPassengerTempDir` call returns what the first
returned and leaves the environment of the first. -/
theorem getPassengerTempDir_again (pid : Nat) (a b : String) (env : Env) :
    getPassengerTempDir pid false b (getPassengerTempDir pid false a env).2
      = getPassengerTempDir pid false a env := by
  have h := getPassengerTempDir_publishes pid false a env
  rw [getPassengerTempDir_published pid b _ _ h.1 h.2]

/-- The one case in which `removeDirTree` throws: `system` returned `-1` for
the `rm -rf` command. -/
theorem removeDirTree_throws_iff (path : String) (w : World) :
    (∃ e, (removeDirTree path w).1 = .error e) ↔ (w.systemAnswer (rmCommand path)).result = -1 := by
  unfold removeDirTree
  by_cases h : (w.systemAnswer (rmCommand path)).result = -1
  · simp [h]
  · simp [h]

/-! ## The claims -/

/-- C6: `getFileType` returns `FT_REGULAR` exactly for a successful stat of a
regular file, `FT_DIRECTORY` exactly for one of a directory, `FT_OTHER`
exactly for one of anything else, `FT_NONEXISTANT` exactly for a failed stat
with `ENOENT`, and throws exactly for a failed stat with another error: then
a `FileSystemException` with that path and that error code; the same whether
the answer comes from `stat` or from the throttled cache. -/
theorem getFileType_classifies {C : Type} (stat : String → StatAnswer)
    (cached : C → String → Nat → StatAnswer)
    (filename : String) (mstat : Option C) (throttleRate : Nat) :
    (getFileType stat cached filename mstat throttleRate = .ok .FT_REGULAR ↔
        (statAnswerOf stat cached filename mstat throttleRate).ret = 0 ∧
          S_ISREG (statAnswerOf stat cached filename mstat throttleRate).st_mode = true) ∧
    (getFileType stat cached filename mstat throttleRate = .ok .FT_DIRECTORY ↔
        (statAnswerOf stat cached filename mstat throttleRate).ret = 0 ∧
          S_ISDIR (statAnswerOf stat cached filename mstat throttleRate).st_mode = true) ∧
    (getFileType stat cached filename mstat throttleRate = .ok .FT_OTHER ↔
        (statAnswerOf stat cached filename mstat throttleRate).ret = 0 ∧
          S_ISREG (statAnswerOf stat cached filename mstat throttleRate).st_mode = false ∧
          S_ISDIR (statAnswerOf stat cached filename mstat throttleRate).st_mode = false) ∧
    (getFileType stat cached filename mstat throttleRate = .ok .FT_NONEXISTANT ↔
        (statAnswerOf stat cached filename mstat throttleRate).ret ≠ 0 ∧
          (statAnswerOf stat cached filename mstat throttleRate).errno = ENOENT) ∧
    (∀ e, getFileType stat cached filename mstat throttleRate = .error e ↔
        (statAnswerOf stat cached filename mstat throttleRate).ret ≠ 0 ∧
          (statAnswerOf stat cached filename mstat throttleRate).errno ≠ ENOENT ∧
          e = .FileSystemException ("Cannot stat '" ++ filename ++ "'")
            (statAnswerOf stat cached filename mstat throttleRate).errno filename) := by
  have hdir : ∀ m, S_ISDIR m = true → S_ISREG m = false := by
    intro m h
    simp only [S_ISDIR, S_ISREG, beq_iff_eq, beq_eq_false_iff_ne] at h ⊢
    rw [h]
    decide
  have hunf : getFileType stat cached filename mstat throttleRate =
      (if (statAnswerOf stat cached filename mstat throttleRate).ret = 0 then
        if S_ISREG (statAnswerOf stat cached filename mstat throttleRate).st_mode then
          .ok .FT_REGULAR
        else if S_ISDIR (statAnswerOf stat cached filename mstat throttleRate).st_mode then
          .ok .FT_DIRECTORY
        else .ok .FT_OTHER
      else if (statAnswerOf stat cached filename mstat throttleRate).errno = ENOENT then
        .ok .FT_NONEXISTANT
      else .error (.FileSystemException ("Cannot stat '" ++ filename ++ "'")
        (statAnswerOf stat cached filename mstat throttleRate).errno filename)) := by
    cases mstat <;> rfl
  rw [hunf]
  generalize statAnswerOf stat cached filename mstat throttleRate = a
  by_cases h0 : a.ret = 0
  · by_cases hr : S_ISREG a.st_mode = true
    · have hd : S_ISDIR a.st_mode = false := by
        cases hd : S_ISDIR a.st_mode
        · rfl
        · rw [hdir _ hd] at hr
          cases hr
      simp [h0, hr, hd]
    · by_cases hd : S_ISDIR a.st_mode = true
      · simp [h0, hr, hd]
      · simp [h0, hr, hd]
  · by_cases he : a.errno = ENOENT
    · simp [h0, he]
    · simp only [h0, he, if_false, false_and, and_false, iff_false, ne_eq, not_false_eq_true,
        true_and, Except.error.injEq, reduceCtorEq, not_false_iff]
      exact fun e => ⟨fun h => h.symm, fun h => h.symm⟩

/-- C10: `escapeForXml` is the in-order concatenation of the rewriting of
each byte: the byte itself when it is in `'A'..'z'`, a digit or one of `/`,
space, `_`, `.`, and `"&#" ++ decimal ++ ";"` otherwise. -/
theorem escapeForXml_eq_flatMap (s : List Byte) :
    escapeForXml s = s.flatMap entityOf := by
  have h := escapeForXmlLoop_spec s [] [] s.length (le_refl _)
  simpa [escapeForXml] using h

/-- C9: with `a` the answer of `readlink`, `resolveSymlink` returns `path`
itself for the failure `EINVAL`, throws a `FileSystemException` carrying the
error code for any other failure, throws one carrying `ENOENT` for an empty
target, returns an absolute target as it is, and returns
`extractDirName path ++ "/" ++ target` for a non-empty relative target. -/
theorem resolveSymlink_cases (readlink : String → Nat → ReadlinkAnswer) (path : String)
    (a : ReadlinkAnswer) (h : readlink path (PATH_MAX - 1) = a) :
    (a = .failed EINVAL → resolveSymlink readlink path = .ok path) ∧
    (∀ e, e ≠ EINVAL → a = .failed e →
      resolveSymlink readlink path =
        .error (.FileSystemException ("Cannot resolve possible symlink '" ++ path ++ "'") e path)) ∧
    (a = .target "" →
      resolveSymlink readlink path =
        .error (.FileSystemException
          ("The file '" ++ path ++
            "' is a symlink, and it refers to an empty filename. This is not allowed.")
          ENOENT path)) ∧
    (∀ cs, a = .target (String.mk ('/' :: cs)) →
      resolveSymlink readlink path = .ok (String.mk ('/' :: cs))) ∧
    (∀ c cs, c ≠ '/' → a = .target (String.mk (c :: cs)) →
      resolveSymlink readlink path = .ok (extractDirName path ++ "/" ++ String.mk (c :: cs))) := by
  subst h
  refine ⟨?_, ?_, ?_, ?_, ?_⟩
  · intro ha
    simp [resolveSymlink, ha]
  · intro e he ha
    simp [resolveSymlink, ha, he]
  · intro ha
    simp [resolveSymlink, ha]
  · intro cs ha
    simp [resolveSymlink, ha]
  · intro c cs hc ha
    simp [resolveSymlink, ha, hc]

/-- C9, at the link `/srv/app/current` with the relative target `releases/7`. -/
theorem resolveSymlink_cases_witness :
    resolveSymlink (fun _ _ => .target "releases/7") "/srv/app/current"
      = .ok "/srv/app/releases/7" :=
  (resolveSymlink_cases (fun _ _ => .target "releases/7") "/srv/app/current"
    (.target "releases/7") rfl).2.2.2.2 'r' "eleases/7".data (by decide) rfl

/-- C7: after a call of `getPassengerTempDir` with `bypassCache = false`, a
second such call returns the same result whatever its `systemTempDir`
argument, and so does every later one; a call with `bypassCache = true`
returns the same whatever value was published before, and every later call
with `bypassCache = false` returns what the bypassing call returned. -/
theorem getPassengerTempDir_stable (pid : Nat) (env : Env) (a b : String) (rest : List String) :
    (getPassengerTempDir pid false b (getPassengerTempDir pid false a env).2).1
        = (getPassengerTempDir pid false a env).1 ∧
    (locateAll pid rest (getPassengerTempDir pid false a env).2).1
        = List.replicate rest.length (getPassengerTempDir pid false a env).1 ∧
    (∀ v, (getPassengerTempDir pid true a (setenv env "PASSENGER_INSTANCE_TEMP_DIR" v)).1
        = (getPassengerTempDir pid true a env).1) ∧
    (locateAll pid rest (getPassengerTempDir pid true a env).2).1
        = List.replicate rest.length (getPassengerTempDir pid true a env).1 := by
  have h1 := getPassengerTempDir_publishes pid false a env
  have h2 := getPassengerTempDir_publishes pid true a env
  refine ⟨?_, ?_, ?_, ?_⟩
  · rw [getPassengerTempDir_published pid b _ _ h1.1 h1.2]
  · rw [locateAll_published pid _ h1.2 rest _ h1.1]
  · intro v
    simp [getPassengerTempDir, calculateResult, getSystemTempDir_setenv]
  · rw [locateAll_published pid _ h2.2 rest _ h2.1]

/-- C8, as the code has it: a non-bypassing call in an environment whose
`PASSENGER_INSTANCE_TEMP_DIR` is set and non-empty returns that value and
leaves the environment alone; every other call returns, and publishes into
that variable, the first `PATH_MAX - 1` characters of
`base ++ "/passenger." ++ decimal pid`, which is all of that text when it is
shorter than `PATH_MAX`. -/
theorem getPassengerTempDir_value (pid : Nat) (env : Env) (bypassCache : Bool)
    (explicitSystemTempDir : String) :
    (∀ v, bypassCache = false → getenv env "PASSENGER_INSTANCE_TEMP_DIR" = some v → v ≠ "" →
      getPassengerTempDir pid bypassCache explicitSystemTempDir env = (v, env)) ∧
    ((bypassCache = false ∧ published env = true) ∨
      ((getPassengerTempDir pid bypassCache explicitSystemTempDir env).1
          = String.mk ((baseDirOf env explicitSystemTempDir ++ "/passenger." ++ toString pid).data.take
              (PATH_MAX - 1)) ∧
        getenv (getPassengerTempDir pid bypassCache explicitSystemTempDir env).2
            "PASSENGER_INSTANCE_TEMP_DIR"
          = some (getPassengerTempDir pid bypassCache explicitSystemTempDir env).1 ∧
        ((baseDirOf env explicitSystemTempDir ++ "/passenger." ++ toString pid).length < PATH_MAX →
          (getPassengerTempDir pid bypassCache explicitSystemTempDir env).1
            = baseDirOf env explicitSystemTempDir ++ "/passenger." ++ toString pid))) := by
  have hbase : (if explicitSystemTempDir = "" then getSystemTempDir env else explicitSystemTempDir)
      = baseDirOf env explicitSystemTempDir := by
    unfold baseDirOf getSystemTempDir
    by_cases he : explicitSystemTempDir = ""
    · simp only [he, if_true, ne_eq, not_true_eq_false, if_false]
      cases getenv env "TMPDIR" with
      | none => rfl
      | some t => by_cases ht : t = "" <;> simp [ht]
    · simp [he]
  have hcalc : (calculateResult pid explicitSystemTempDir env).1
      = String.mk ((baseDirOf env explicitSystemTempDir ++ "/passenger." ++ toString pid).data.take
          (PATH_MAX - 1)) := by
    simp only [calculateResult, hbase, snprintf]
  have hshort : (baseDirOf env explicitSystemTempDir ++ "/passenger." ++ toString pid).length
        < PATH_MAX →
      String.mk ((baseDirOf env explicitSystemTempDir ++ "/passenger." ++ toString pid).data.take
          (PATH_MAX - 1))
        = baseDirOf env explicitSystemTempDir ++ "/passenger." ++ toString pid := by
    intro hl
    have hle : (baseDirOf env explicitSystemTempDir ++ "/passenger." ++ toString pid).data.length
        ≤ PATH_MAX - 1 := by
      have : (baseDirOf env explicitSystemTempDir ++ "/passenger." ++ toString pid).data.length
          < PATH_MAX := hl
      omega
    rw [List.take_of_length_le hle]
  have hpub := getPassengerTempDir_publishes pid bypassCache explicitSystemTempDir env
  refine ⟨?_, ?_⟩
  · intro v hb hv hne
    subst hb
    exact getPassengerTempDir_published pid _ env v hv hne
  · by_cases hc : bypassCache = false ∧ published env = true
    · exact Or.inl hc
    · right
      have hres : getPassengerTempDir pid bypassCache explicitSystemTempDir env
          = calculateResult pid explicitSystemTempDir env := by
        unfold getPassengerTempDir
        cases bypassCache with
        | true => simp
        | false =>
          have hp : published env = false := by
            cases hq : published env with
            | false => rfl
            | true => exact absurd ⟨rfl, hq⟩ hc
          unfold published at hp
          cases hv : getenv env "PASSENGER_INSTANCE_TEMP_DIR" with
          | none => simp
          | some v =>
            rw [hv] at hp
            have : v = "" := by simpa using hp
            simp [this]
      refine ⟨?_, hpub.1, ?_⟩
      · rw [hres, hcalc]
      · intro hl
        rw [hres, hcalc, hshort hl]

/-- C8, against the claim as it was stated: with a `systemTempDir` of 5000
characters the result is not `base ++ "/passenger." ++ decimal pid`, of which
`snprintf` keeps `PATH_MAX - 1` characters only. -/
theorem getPassengerTempDir_truncates :
    (getPassengerTempDir 1 true (String.mk (List.replicate 5000 'a')) []).1
      ≠ String.mk (List.replicate 5000 'a') ++ "/passenger." ++ toString 1 := by
  have hlen : (String.mk (List.replicate 5000 'a')).length = 5000 := by
    simp only [String.length, List.length_replicate]
  generalize String.mk (List.replicate 5000 'a') = big at hlen ⊢
  have hne : big ≠ "" := by
    intro hb
    rw [hb] at hlen
    exact absurd hlen (by decide)
  intro h
  have hl := congrArg String.length h
  simp only [getPassengerTempDir, calculateResult, if_true, if_neg hne, snprintf,
    String.length_append, hlen] at hl
  have hle : (String.mk (List.take (PATH_MAX - 1)
      (big ++ "/passenger." ++ toString 1).data)).length ≤ PATH_MAX - 1 := by
    simp only [String.length, List.length_take]
    exact Nat.min_le_left _ _
  rw [hl] at hle
  simp only [PATH_MAX] at hle
  omega

/-- C5, at the failing input: `rm -rf` exits with a non-zero status, and
`removeDirTree` returns without an exception while the temp root is still
there; `makeDirTree`, for the same answer of its own command, throws. -/
theorem removeDirTree_returns_when_rm_fails :
    (rmFailsWorld.systemAnswer (rmCommand "/tmp/passenger.4242")).result = 256 ∧
    (removeDirTree "/tmp/passenger.4242" rmFailsWorld).1 = .ok () ∧
    statOk (removeDirTree "/tmp/passenger.4242" rmFailsWorld).2 "/tmp/passenger.4242"
      = true ∧
    (infoFailsWorld.systemAnswer
      (mkdirCommand "u=rwxs,g=,o=" "/tmp/passenger.4242/info")).result = 256 ∧
    (makeDirTree "/tmp/passenger.4242/info" "u=rwxs,g=,o=" NO_ID NO_ID infoFailsWorld).1
      = .error (.IOException "Cannot create directory '/tmp/passenger.4242/info'") :=
  ⟨by decide, rfl, by decide, by decide, rfl⟩

/-- C3, as the code has it: `makeDirTree` on a path that exists runs no
`mkdir` and no `chown` and changes nothing, whatever the path is; and when the
`mkdir` command of each target path makes that path and a run of
`createPassengerTempDir` returns, a second run with the same arguments in the
world it left returns as well and leaves that world as it is: the same trace
(no `mkdir`, no `chown`) and the same files. -/
theorem createPassengerTempDir_idempotent (w : World) (systemTempDir : String)
    (userSwitching : Bool) (lowestUser : String) (workerUid workerGid : Nat)
    (hmade : ∀ p ∈ targetPaths (tmpDirOf w systemTempDir), p ∈ w.mkdirMakes p)
    (h : (createPassengerTempDir systemTempDir userSwitching lowestUser workerUid workerGid w).1
      = .ok ()) :
    createPassengerTempDir systemTempDir userSwitching lowestUser workerUid workerGid
        (createPassengerTempDir systemTempDir userSwitching lowestUser workerUid workerGid w).2
      = (.ok (),
          (createPassengerTempDir systemTempDir userSwitching lowestUser workerUid workerGid w).2) ∧
    (∀ (path mode : String) (owner group : Nat) (w1 : World),
      statOk w1 path = true → makeDirTree path mode owner group w1 = (.ok (), w1)) := by
  refine ⟨?_, fun path mode owner group w1 h1 => makeDirTree_of_exists path mode owner group w1 h1⟩
  have heq := createPassengerTempDir_eq_runSpecs systemTempDir userSwitching lowestUser
    workerUid workerGid w
  have hpaths := directorySpecs_paths w.euid userSwitching workerUid workerGid
    (determineLowestUserAndGroup w.getpwnam lowestUser).1
    (determineLowestUserAndGroup w.getpwnam lowestUser).2 (tmpDirOf w systemTempDir)
  have hex : ∀ d ∈ directorySpecs w.euid userSwitching workerUid workerGid
      (determineLowestUserAndGroup w.getpwnam lowestUser).1
      (determineLowestUserAndGroup w.getpwnam lowestUser).2 (tmpDirOf w systemTempDir),
      statOk (createPassengerTempDir systemTempDir userSwitching lowestUser workerUid
        workerGid w).2 d.path = true := by
    rw [heq] at h ⊢
    refine runSpecs_ok_exists _ _ ?_ h
    intro d hd
    exact hmade d.path (hpaths ▸ List.mem_map_of_mem DirectorySpec.path hd)
  have hfr : (createPassengerTempDir systemTempDir userSwitching lowestUser workerUid
        workerGid w).2.pid = w.pid ∧
      (createPassengerTempDir systemTempDir userSwitching lowestUser workerUid
        workerGid w).2.euid = w.euid ∧
      (createPassengerTempDir systemTempDir userSwitching lowestUser workerUid
        workerGid w).2.env = (getPassengerTempDir w.pid false systemTempDir w.env).2 ∧
      (createPassengerTempDir systemTempDir userSwitching lowestUser workerUid
        workerGid w).2.getpwnam = w.getpwnam := by
    rw [heq]
    have hf := runSpecs_frame
      (directorySpecs w.euid userSwitching workerUid workerGid
        (determineLowestUserAndGroup w.getpwnam lowestUser).1
        (determineLowestUserAndGroup w.getpwnam lowestUser).2 (tmpDirOf w systemTempDir))
      { w with env := (getPassengerTempDir w.pid false systemTempDir w.env).2 }
    exact ⟨hf.1, hf.2.1, hf.2.2.1, hf.2.2.2.1⟩
  clear heq h
  generalize (createPassengerTempDir systemTempDir userSwitching lowestUser workerUid
    workerGid w).2 = w1 at hex hfr ⊢
  obtain ⟨hpid, heuid, henv, hpw⟩ := hfr
  have hloc : getPassengerTempDir w1.pid false systemTempDir w1.env
      = (tmpDirOf w systemTempDir, w1.env) := by
    rw [hpid, henv, getPassengerTempDir_again]
    rfl
  have htmp : tmpDirOf w1 systemTempDir = tmpDirOf w systemTempDir := by
    unfold tmpDirOf
    rw [hloc]
    rfl
  have hw : ({ w1 with env := (getPassengerTempDir w1.pid false systemTempDir w1.env).2 } : World)
      = w1 := by
    rw [hloc]
  rw [createPassengerTempDir_eq_runSpecs, hw, htmp, heuid, hpw]
  exact runSpecs_of_exists _ w1 hex

/-- C3, at `rootWorld`: the first run returns, and the second leaves its world. -/
theorem createPassengerTempDir_idempotent_witness :
    createPassengerTempDir "" false "www" 33 33
        (createPassengerTempDir "" false "www" 33 33 rootWorld).2
      = (.ok (), (createPassengerTempDir "" false "www" 33 33 rootWorld).2) :=
  (createPassengerTempDir_idempotent rootWorld "" false "www" 33 33
    (fun _ _ => List.mem_singleton.2 rfl) rfl).1

/-- C3, against the claim as it was stated: with the system temp directory
`/tmp/$x` the first run returns, and the second run, with the same
arguments in the world the first left, runs all six `mkdir` commands again. -/
theorem createPassengerTempDir_repeats_mkdir :
    (createPassengerTempDir "/tmp/$x" false "www" 33 33 dollarWorld).1 = .ok () ∧
    (createPassengerTempDir "/tmp/$x" false "www" 33 33
      (createPassengerTempDir "/tmp/$x" false "www" 33 33 dollarWorld).2).1 = .ok () ∧
    newOps (createPassengerTempDir "/tmp/$x" false "www" 33 33 dollarWorld).2
        (createPassengerTempDir "/tmp/$x" false "www" 33 33
          (createPassengerTempDir "/tmp/$x" false "www" 33 33 dollarWorld).2).2
      = [Op.system (mkdirCommand "u=wxs,g=x,o=x" "/tmp/$x/passenger.4242"),
          Op.system (mkdirCommand "u=wxs,g=,o=" "/tmp/$x/passenger.4242/webserver_private"),
          Op.system (mkdirCommand "u=rwxs,g=,o=" "/tmp/$x/passenger.4242/info"),
          Op.system (mkdirCommand "u=wxs,g=,o=" "/tmp/$x/passenger.4242/master"),
          Op.system (mkdirCommand "u=rwxs,g=x,o=x" "/tmp/$x/passenger.4242/backends"),
          Op.system (mkdirCommand "u=wxs,g=,o=" "/tmp/$x/passenger.4242/var")] :=
  ⟨rfl, rfl, by decide⟩

end Passenger
